import Mathlib

/-!
Verification of the record-identity and blood-sample lifecycle core of the
patient demographic system (src/app.py).

The SQLite database is embedded as a `DB` value holding the three tables the
claims touch (`locations`, `patients`, `blood_samples`; `health_records` is
not referenced by any claim) plus a monotone `clock` modelling
`CURRENT_TIMESTAMP` (the clock advances by one tick on every handler call, as
wall-clock time does between sequential requests).

Modelling notes, each traceable to the source:
- `app.py` never issues `PRAGMA foreign_keys = ON`, and SQLite leaves foreign
  key enforcement OFF by default; hence the declared `FOREIGN KEY` clauses in
  `init_database` are not enforced at runtime and the handlers below perform
  no referential check (there is none in the Python either).
- Web form values reach the handlers as `data[key][0]` (raising `KeyError`
  when absent, which the surrounding `try` turns into a 500 error); a form is
  embedded as a structure of `Option` fields.
- `id` columns are `INTEGER PRIMARY KEY AUTOINCREMENT`: the next id is one
  more than the largest ever used, which with no deletions is
  `max of existing ids + 1`.
- Nullable columns are `Option` fields; `NOT NULL` columns are plain fields.
  Optional form fields are stored via `data.get(key, [''])[0]`, i.e. as the
  empty string (non-NULL) when absent.
- `simulate_whatsapp_send` always returns `True` in the source; per the spec
  it is an injected outbound capability, so `handle_send_results` takes the
  capability's result as a `Bool` parameter (`true` reproduces the source).
- Python `f"{n:06d}"` is embedded as `format06d`: the decimal digits of `n`
  left-padded with `'0'` to at least six characters (never truncated).
-/

/-- The character for a decimal digit `d < 10`. -/
def digitChar (d : Nat) : Char := Char.ofNat (48 + d)

/-- Fuel-driven accumulator loop producing the decimal digits of `n` in order. -/
def natDigitsGo : Nat → Nat → List Char → List Char
  | 0, _, acc => acc
  | fuel + 1, n, acc =>
    if n < 10 then digitChar n :: acc
    else natDigitsGo fuel (n / 10) (digitChar (n % 10) :: acc)

/-- Decimal digits of `n`, most significant first (`natDigitsList 0 = ['0']`). -/
def natDigitsList (n : Nat) : List Char := natDigitsGo (n + 1) n []

/-- Python `f"{n:06d}"`: decimal digits of `n` left-padded with zeros to width 6. -/
def format06d (n : Nat) : String :=
  ⟨List.replicate (6 - (natDigitsList n).length) (digitChar 0) ++ natDigitsList n⟩

/-- A row of the `locations` table. -/
structure Location where
  id : Nat
  name : String
  address : String
  phone : String
  created_at : Nat
  deriving DecidableEq

/-- A row of the `patients` table. -/
structure Patient where
  id : Nat
  patient_id : String
  first_name : String
  last_name : String
  date_of_birth : String
  gender : String
  phone : String
  email : Option String
  address : Option String
  emergency_contact : Option String
  location_id : Nat
  created_at : Nat
  deriving DecidableEq

/-- A row of the `blood_samples` table. -/
structure BloodSample where
  id : Nat
  sample_id : String
  patient_id : Nat
  collection_location_id : Nat
  test_location_id : Option Nat
  collected_by : String
  collected_at : Nat
  test_type : String
  status : String
  results : Option String
  tested_by : Option String
  tested_at : Option Nat
  results_sent_at : Option Nat
  deriving DecidableEq

/-- The persistent store plus a monotone clock standing for CURRENT_TIMESTAMP. -/
structure DB where
  locations : List Location
  patients : List Patient
  blood_samples : List BloodSample
  clock : Nat
  deriving DecidableEq

/-- The store before any table exists. -/
def emptyDB : DB := { locations := [], patients := [], blood_samples := [], clock := 0 }

/-- Next AUTOINCREMENT id: one more than the largest id in use (1 on an empty table). -/
def nextRowId (ids : List Nat) : Nat := ids.foldr max 0 + 1

/-- The seed location inserted by `init_database` when the table is empty. -/
def seedLocation (id now : Nat) : Location :=
  { id := id
    name := "Main Hospital"
    address := "123 Healthcare Street, Medical City"
    phone := "+1234567890"
    created_at := now }

/-- Embeds `init_database`: creates the tables (always present in this model)
and inserts the default location exactly when `locations` is empty. -/
def init_database (db : DB) : DB :=
  if db.locations.length = 0 then
    { db with
      locations := db.locations ++ [seedLocation (nextRowId (db.locations.map Location.id)) db.clock]
      clock := db.clock + 1 }
  else { db with clock := db.clock + 1 }

/-- Embeds `generate_patient_id`: count the patients rows and format `PAT{count+1:06d}`. -/
def generate_patient_id (db : DB) : String :=
  "PAT" ++ format06d (db.patients.length + 1)

/-- Embeds `generate_sample_id`: count the blood_samples rows and format `BS{count+1:06d}`. -/
def generate_sample_id (db : DB) : String :=
  "BS" ++ format06d (db.blood_samples.length + 1)

/-- The handler's outcome as seen by the client: a 302 redirect (success) or
`send_error(code, msg)`. -/
inductive HttpResponse where
  | redirect (location : String)
  | error (code : Nat) (msg : String)
  deriving DecidableEq

/-- The registration form fields (each `none` when absent from the POST data). -/
structure RegisterForm where
  first_name : Option String
  last_name : Option String
  date_of_birth : Option String
  gender : Option String
  phone : Option String
  email : Option String
  address : Option String
  emergency_contact : Option String
  location_id : Option Nat
  deriving DecidableEq

/-- The patient row inserted by a successful registration. -/
def registeredPatient (db : DB) (data : RegisterForm)
    (fn ln dob g ph : String) (loc : Nat) : Patient :=
  { id := nextRowId (db.patients.map Patient.id)
    patient_id := generate_patient_id db
    first_name := fn
    last_name := ln
    date_of_birth := dob
    gender := g
    phone := ph
    email := some (data.email.getD "")
    address := some (data.address.getD "")
    emergency_contact := some (data.emergency_contact.getD "")
    location_id := loc
    created_at := db.clock }

/-- Embeds `handle_register_patient`. A missing required key raises `KeyError`,
caught as a 500; a duplicate `patient_id` violates the UNIQUE constraint,
caught as a 500; otherwise the row is inserted (no foreign key check runs,
as the `PRAGMA` enabling them is never issued) and the client is redirected. -/
def handle_register_patient (db : DB) (data : RegisterForm) : DB × HttpResponse :=
  let patient_id := generate_patient_id db
  match data.first_name, data.last_name, data.date_of_birth, data.gender,
        data.phone, data.location_id with
  | some fn, some ln, some dob, some g, some ph, some loc =>
    if db.patients.any (fun p => p.patient_id == patient_id) then
      ({ db with clock := db.clock + 1 },
       .error 500 "Registration failed: UNIQUE constraint failed: patients.patient_id")
    else
      ({ db with
         patients := db.patients ++ [registeredPatient db data fn ln dob g ph loc]
         clock := db.clock + 1 },
       .redirect ("/patient/" ++ patient_id))
  | _, _, _, _, _, _ =>
    ({ db with clock := db.clock + 1 }, .error 500 "Registration failed: KeyError")

/-- Python's default `str.strip` on the ASCII whitespace the codes can carry. -/
def isPySpace (c : Char) : Bool :=
  c == ' ' || c == '\t' || c == '\n' || c == '\r' || c == Char.ofNat 11 || c == Char.ofNat 12

/-- Embeds `.strip()`. -/
def pythonStrip (s : String) : String :=
  ⟨((s.data.dropWhile isPySpace).reverse.dropWhile isPySpace).reverse⟩

/-- Embeds `.upper()` (on the ASCII range the patient codes occupy). -/
def pythonUpper (s : String) : String := ⟨s.data.map Char.toUpper⟩

/-- Embeds `handle_search_patient`: the code it redirects the client to,
namely `data['patient_id'][0].strip().upper()`. -/
def handle_search_patient (data_patient_id : String) : String :=
  pythonUpper (pythonStrip data_patient_id)

/-- Embeds the SELECT of `send_patient_details`: the patient row joined with
its location row (an inner JOIN: no row when either side is missing). -/
def patient_details_row (db : DB) (code : String) : Option (Patient × Location) :=
  match db.patients.find? (fun p => p.patient_id == code) with
  | none => none
  | some p => (db.locations.find? (fun l => l.id == p.location_id)).map (fun l => (p, l))

/-- The blood-sample collection form fields. -/
structure CollectForm where
  collection_location_id : Option Nat
  test_type : Option String
  collected_by : Option String
  deriving DecidableEq

/-- The blood-sample row inserted by a successful collection. -/
def collectedSample (db : DB) (internal_patient_id cl : Nat) (tt cb : String) : BloodSample :=
  { id := nextRowId (db.blood_samples.map BloodSample.id)
    sample_id := generate_sample_id db
    patient_id := internal_patient_id
    collection_location_id := cl
    test_location_id := none
    collected_by := cb
    collected_at := db.clock
    test_type := tt
    status := "collected"
    results := none
    tested_by := none
    tested_at := none
    results_sent_at := none }

/-- Embeds `handle_collect_blood_sample`: resolve the patient by code (404 when
absent), issue a sample code, insert the row with status `'collected'`. -/
def handle_collect_blood_sample (db : DB) (patient_code : String) (data : CollectForm) :
    DB × HttpResponse :=
  match db.patients.find? (fun p => p.patient_id == patient_code) with
  | none => ({ db with clock := db.clock + 1 }, .error 404 "Patient not found")
  | some p =>
    let sample_id := generate_sample_id db
    match data.collection_location_id, data.test_type, data.collected_by with
    | some cl, some tt, some cb =>
      if db.blood_samples.any (fun s => s.sample_id == sample_id) then
        ({ db with clock := db.clock + 1 },
         .error 500 "Failed to collect blood sample: UNIQUE constraint failed: blood_samples.sample_id")
      else
        ({ db with
           blood_samples := db.blood_samples ++ [collectedSample db p.id cl tt cb]
           clock := db.clock + 1 },
         .redirect ("/patient/" ++ patient_code))
    | _, _, _ =>
      ({ db with clock := db.clock + 1 },
       .error 500 "Failed to collect blood sample: KeyError")

/-- The test-results form fields. -/
structure TestForm where
  test_location_id : Option Nat
  results : Option String
  tested_by : Option String
  deriving DecidableEq

/-- The row transformation of the UPDATE in `handle_update_test_results`
(`WHERE sample_id = ?` — note: no condition on `status`). -/
def applyTestUpdate (code : String) (tl : Nat) (r tb : String) (now : Nat)
    (s : BloodSample) : BloodSample :=
  if s.sample_id == code then
    { s with
      test_location_id := some tl
      results := some r
      tested_by := some tb
      tested_at := some now
      status := "tested" }
  else s

/-- Embeds `handle_update_test_results`: runs the UPDATE on every row whose
`sample_id` matches (there is no status check and no check that any row
matched) and redirects; a missing form key raises `KeyError`, caught as 500. -/
def handle_update_test_results (db : DB) (sample_id : String) (data : TestForm) :
    DB × HttpResponse :=
  match data.test_location_id, data.results, data.tested_by with
  | some tl, some r, some tb =>
    ({ db with
       blood_samples := db.blood_samples.map (applyTestUpdate sample_id tl r tb db.clock)
       clock := db.clock + 1 },
     .redirect "/blood_samples")
  | _, _, _ =>
    ({ db with clock := db.clock + 1 },
     .error 500 "Failed to update test results: KeyError")

/-- The row transformation of the UPDATE in `handle_send_results`
(`WHERE sample_id = ?`). -/
def applySendUpdate (code : String) (now : Nat) (s : BloodSample) : BloodSample :=
  if s.sample_id == code then
    { s with
      status := "results_sent"
      results_sent_at := some now }
  else s

/-- The source's `simulate_whatsapp_send` unconditionally reports success. -/
def simulate_whatsapp_send_result : Bool := true

/-- Embeds `handle_send_results`. The SELECT filters on
`sample_id = ? AND status = 'tested'` joined with the patient row, so a
missing sample and a sample in any other status produce the same
404 `"Sample not found or not tested"`. `send_ok` is the result reported by
the outbound notification capability (`true` in the source); only when it is
`true` is the UPDATE to `results_sent` committed. -/
def handle_send_results (db : DB) (sample_id : String) (send_ok : Bool) :
    DB × HttpResponse :=
  match db.blood_samples.find? (fun s => s.sample_id == sample_id && s.status == "tested") with
  | none => ({ db with clock := db.clock + 1 }, .error 404 "Sample not found or not tested")
  | some s =>
    match db.patients.find? (fun p => p.id == s.patient_id) with
    | none => ({ db with clock := db.clock + 1 }, .error 404 "Sample not found or not tested")
    | some _ =>
      if send_ok then
        ({ db with
           blood_samples := db.blood_samples.map (applySendUpdate sample_id db.clock)
           clock := db.clock + 1 },
         .redirect "/blood_samples")
      else
        ({ db with clock := db.clock + 1 }, .redirect "/blood_samples")

/-- A sample-workflow operation, for stating properties over operation sequences. -/
inductive Op where
  | collect (patient_code : String) (form : CollectForm)
  | record (sample_code : String) (form : TestForm)
  | send (sample_code : String) (ok : Bool)
  deriving DecidableEq

/-- The state reached by one operation. -/
def applyOp (db : DB) : Op → DB
  | .collect pc f => (handle_collect_blood_sample db pc f).1
  | .record sc f => (handle_update_test_results db sc f).1
  | .send sc ok => (handle_send_results db sc ok).1

/-- The state reached by a sequence of operations. -/
def runOps (db : DB) : List Op → DB
  | [] => db
  | op :: rest => runOps (applyOp db op) rest

/-- The number denoted by a (most-significant-first) digit string, used to
invert `format06d`. -/
def digitsVal : List Char → Nat
  | [] => 0
  | c :: cs => (c.toNat - 48) * 10 ^ cs.length + digitsVal cs

theorem digitChar_toNat {d : Nat} (h : d < 10) : (digitChar d).toNat = 48 + d := by
  interval_cases d <;> decide

theorem digitsVal_go (fuel : Nat) : ∀ n acc, n < fuel →
    digitsVal (natDigitsGo fuel n acc) = n * 10 ^ acc.length + digitsVal acc := by
  induction fuel with
  | zero => intro n acc h; omega
  | succ fuel ih =>
    intro n acc h
    unfold natDigitsGo
    by_cases h10 : n < 10
    · simp [h10, digitsVal, digitChar_toNat h10]
    · have hdiv : n / 10 < fuel := by
        have h1 : n / 10 < n := Nat.div_lt_self (by omega) (by norm_num)
        omega
      simp only [h10, if_false]
      rw [ih (n / 10) (digitChar (n % 10) :: acc) hdiv]
      have hmod : n % 10 < 10 := Nat.mod_lt n (by norm_num)
      simp only [digitsVal, List.length_cons, digitChar_toNat hmod, Nat.add_sub_cancel_left]
      have key : n / 10 * 10 ^ (acc.length + 1) + n % 10 * 10 ^ acc.length
          = n * 10 ^ acc.length := by
        rw [pow_succ]
        calc n / 10 * (10 ^ acc.length * 10) + n % 10 * 10 ^ acc.length
            = (10 * (n / 10) + n % 10) * 10 ^ acc.length := by ring
          _ = n * 10 ^ acc.length := by rw [Nat.div_add_mod]
      rw [← Nat.add_assoc, key]

theorem digitsVal_natDigitsList (n : Nat) : digitsVal (natDigitsList n) = n := by
  have h := digitsVal_go (n + 1) n [] (Nat.lt_succ_self n)
  simpa [digitsVal] using h

theorem digitsVal_replicate_zero (k : Nat) (l : List Char) :
    digitsVal (List.replicate k (digitChar 0) ++ l) = digitsVal l := by
  induction k with
  | zero => simp
  | succ k ih =>
    have h0 : (digitChar 0).toNat = 48 := by decide
    simp [List.replicate_succ, digitsVal, h0, ih]

theorem format06d_inj {a b : Nat} (h : format06d a = format06d b) : a = b := by
  have hd : (format06d a).data = (format06d b).data := by rw [h]
  simp only [format06d] at hd
  calc a = digitsVal (natDigitsList a) := (digitsVal_natDigitsList a).symm
    _ = digitsVal (List.replicate (6 - (natDigitsList a).length) (digitChar 0) ++ natDigitsList a) :=
        (digitsVal_replicate_zero _ _).symm
    _ = digitsVal (List.replicate (6 - (natDigitsList b).length) (digitChar 0) ++ natDigitsList b) := by
        rw [hd]
    _ = digitsVal (natDigitsList b) := digitsVal_replicate_zero _ _
    _ = b := digitsVal_natDigitsList b

theorem string_append_left_cancel {p x y : String} (h : p ++ x = p ++ y) : x = y := by
  have hd : p.data ++ x.data = p.data ++ y.data := by
    have h1 := congrArg String.data h
    simpa [String.data_append] using h1
  have h2 := List.append_cancel_left hd
  cases x; cases y; exact congrArg String.mk h2

/-- A registration form with every required field present (scenario 2 of the
spec) and the optional fields absent. -/
def validForm : RegisterForm :=
  { first_name := some "Test"
    last_name := some "Patient"
    date_of_birth := some "1990-01-01"
    gender := some "Male"
    phone := some "+1234567890"
    email := none
    address := none
    emergency_contact := none
    location_id := some 1 }

/-- The store right after first initialization: one seed location, no patients. -/
def startDB : DB := init_database emptyDB

/-- The store after `k` sequential registrations of `validForm` from `startDB`. -/
def registerN : Nat → DB
  | 0 => startDB
  | k + 1 => (handle_register_patient (registerN k) validForm).1

theorem fresh_of_codes {db : DB} {k : Nat} (hlen : db.patients.length = k)
    (hmem : ∀ p ∈ db.patients, ∃ i, 1 ≤ i ∧ i ≤ k ∧ p.patient_id = "PAT" ++ format06d i) :
    db.patients.any (fun p => p.patient_id == generate_patient_id db) = false := by
  rw [List.any_eq_false]
  intro p hp
  obtain ⟨i, hi1, hik, hpid⟩ := hmem p hp
  simp only [generate_patient_id, hlen, hpid, beq_iff_eq]
  intro hEq
  have h2 : format06d i = format06d (k + 1) := string_append_left_cancel hEq
  have := format06d_inj h2
  omega

theorem registerN_spec (k : Nat) :
    (registerN k).patients.length = k ∧
    ∀ p ∈ (registerN k).patients,
      ∃ i, 1 ≤ i ∧ i ≤ k ∧ p.patient_id = "PAT" ++ format06d i := by
  induction k with
  | zero =>
    constructor
    · rfl
    · intro p hp
      simp [registerN, startDB, init_database, emptyDB] at hp
  | succ k ih =>
    obtain ⟨hlen, hmem⟩ := ih
    have hfresh := fresh_of_codes hlen hmem
    have hstep : registerN (k + 1) =
        { registerN k with
          patients := (registerN k).patients ++
            [registeredPatient (registerN k) validForm "Test" "Patient" "1990-01-01" "Male" "+1234567890" 1]
          clock := (registerN k).clock + 1 } := by
      show (handle_register_patient (registerN k) validForm).1 = _
      simp [handle_register_patient, validForm, hfresh]
    constructor
    · rw [hstep]
      simp [hlen]
    · intro p hp
      rw [hstep] at hp
      simp only [List.mem_append, List.mem_singleton] at hp
      rcases hp with hp | hp
      · obtain ⟨i, hi1, hik, hpid⟩ := hmem p hp
        exact ⟨i, hi1, by omega, hpid⟩
      · refine ⟨k + 1, by omega, by omega, ?_⟩
        rw [hp]
        simp [registeredPatient, generate_patient_id, hlen]

/-- C4: for every N ≥ 1, starting from an empty patients table and performing
N sequential successful registrations with no deletions, the Nth issued
patient code is the string `PAT` followed by N zero-padded to six digits, and
the Nth registration indeed succeeds with a redirect to that code. -/
theorem C4_nth_patient_code (N : Nat) (h : 1 ≤ N) :
    generate_patient_id (registerN (N - 1)) = "PAT" ++ format06d N ∧
    (handle_register_patient (registerN (N - 1)) validForm).2 =
      HttpResponse.redirect ("/patient/" ++ ("PAT" ++ format06d N)) := by
  obtain ⟨hlen, hmem⟩ := registerN_spec (N - 1)
  have hfresh := fresh_of_codes hlen hmem
  have hN : N - 1 + 1 = N := by omega
  have hgen : generate_patient_id (registerN (N - 1)) = "PAT" ++ format06d N := by
    simp [generate_patient_id, hlen, hN]
  refine ⟨hgen, ?_⟩
  have hfresh2 : ((registerN (N - 1)).patients.any
      fun p => p.patient_id == ("PAT" ++ format06d N)) = false := by
    rw [← hgen]; exact hfresh
  simp only [handle_register_patient, validForm]
  rw [hgen, hfresh2]
  simp

/-- Witness for C4, instantiated at N = 3. -/
theorem C4_nth_patient_code_witness :
    1 ≤ 3 ∧
    (generate_patient_id (registerN 2) = "PAT" ++ format06d 3 ∧
     (handle_register_patient (registerN 2) validForm).2 =
       HttpResponse.redirect ("/patient/" ++ ("PAT" ++ format06d 3))) :=
  ⟨by decide, C4_nth_patient_code 3 (by decide)⟩

/-- C7: when zero locations exist, `init_database` inserts exactly the one
seed location `Main Hospital` with the fixed address and phone; when a
location already exists it inserts none; no other table is touched. -/
theorem C7_seed_location (db : DB) :
    (db.locations = [] →
      (init_database db).locations =
        [{ id := 1
           name := "Main Hospital"
           address := "123 Healthcare Street, Medical City"
           phone := "+1234567890"
           created_at := db.clock }]) ∧
    (db.locations ≠ [] → (init_database db).locations = db.locations) ∧
    (init_database db).patients = db.patients ∧
    (init_database db).blood_samples = db.blood_samples := by
  refine ⟨?_, ?_, ?_, ?_⟩
  · intro h
    simp [init_database, h, nextRowId, seedLocation]
  · intro h
    have hlen : db.locations.length ≠ 0 := by
      simpa [List.length_eq_zero] using h
    simp [init_database, hlen]
  · unfold init_database
    split <;> rfl
  · unfold init_database
    split <;> rfl

/-- Witness for C7: the empty-table case on the fresh store and the
occupied-table case on the initialized store. -/
theorem C7_seed_location_witness :
    (init_database emptyDB).locations =
      [{ id := 1
         name := "Main Hospital"
         address := "123 Healthcare Street, Medical City"
         phone := "+1234567890"
         created_at := 0 }] ∧
    (init_database startDB).locations = startDB.locations :=
  ⟨(C7_seed_location emptyDB).1 rfl, (C7_seed_location startDB).2.1 (by decide)⟩

/-- C8: when the outbound notification capability reports failure,
`handle_send_results` leaves every row of every table unchanged (the sample
stays `tested` with all its fields, so the delivery can be retried). -/
theorem C8_send_failure_no_change (db : DB) (code : String) :
    (handle_send_results db code false).1.blood_samples = db.blood_samples ∧
    (handle_send_results db code false).1.patients = db.patients ∧
    (handle_send_results db code false).1.locations = db.locations := by
  unfold handle_send_results
  cases h1 : db.blood_samples.find? (fun s => s.sample_id == code && s.status == "tested") with
  | none => exact ⟨rfl, rfl, rfl⟩
  | some s =>
    cases h2 : db.patients.find? (fun p => p.id == s.patient_id) with
    | none => simp [h2]
    | some p => simp [h2]

theorem pythonUpper_fixed {s : String} (h : ∀ c ∈ s.data, c.toUpper = c) :
    pythonUpper s = s := by
  cases s with
  | mk data =>
    show String.mk (data.map Char.toUpper) = String.mk data
    congr 1
    calc data.map Char.toUpper = data.map id := List.map_congr_left h
      _ = data := List.map_id data

theorem natDigitsGo_upper (fuel : Nat) : ∀ n acc, (∀ c ∈ acc, c.toUpper = c) →
    ∀ c ∈ natDigitsGo fuel n acc, c.toUpper = c := by
  have hdig : ∀ d, d < 10 → (digitChar d).toUpper = digitChar d := by decide
  induction fuel with
  | zero => intro n acc hacc c hc; exact hacc c hc
  | succ fuel ih =>
    intro n acc hacc c hc
    unfold natDigitsGo at hc
    by_cases h10 : n < 10
    · simp only [h10, if_true] at hc
      rcases List.mem_cons.mp hc with hc | hc
      · rw [hc]; exact hdig n h10
      · exact hacc c hc
    · simp only [h10, if_false] at hc
      refine ih (n / 10) (digitChar (n % 10) :: acc) ?_ c hc
      intro c' hc'
      rcases List.mem_cons.mp hc' with hc' | hc'
      · rw [hc']; exact hdig _ (Nat.mod_lt n (by norm_num))
      · exact hacc c' hc'

theorem pythonUpper_patient_code (m : Nat) :
    pythonUpper ("PAT" ++ format06d m) = "PAT" ++ format06d m := by
  apply pythonUpper_fixed
  intro c hc
  rw [String.data_append] at hc
  rcases List.mem_append.mp hc with hc | hc
  · revert hc
    have : ∀ c ∈ "PAT".data, c.toUpper = c := by decide
    exact this c
  · rcases List.mem_append.mp hc with hc | hc
    · have h0 : c = digitChar 0 := List.eq_of_mem_replicate hc
      rw [h0]; decide
    · exact natDigitsGo_upper (m + 1) m [] (by intro c' hc'; simp at hc') c hc

/-- C9: searching for an input string s resolves exactly the patient that a
direct lookup of `upper(trim(s))` resolves (the handler redirects to that
normalized code), and every generated patient code is already upper-case,
hence stored upper-case. -/
theorem C9_search_case_insensitive (db : DB) (s : String) :
    patient_details_row db (handle_search_patient s) =
      patient_details_row db (pythonUpper (pythonStrip s)) ∧
    pythonUpper (generate_patient_id db) = generate_patient_id db :=
  ⟨rfl, pythonUpper_patient_code (db.patients.length + 1)⟩

/-- C10: a successful registration whose optional fields (email, address,
emergency_contact) are absent stores the empty string — not NULL — for each. -/
theorem C10_absent_optional_fields (db : DB) (data : RegisterForm)
    (fn ln dob g ph : String) (loc : Nat)
    (h1 : data.first_name = some fn) (h2 : data.last_name = some ln)
    (h3 : data.date_of_birth = some dob) (h4 : data.gender = some g)
    (h5 : data.phone = some ph) (h6 : data.location_id = some loc)
    (he : data.email = none) (ha : data.address = none)
    (hc : data.emergency_contact = none)
    (hfresh : db.patients.any (fun p => p.patient_id == generate_patient_id db) = false) :
    (handle_register_patient db data).2 =
      HttpResponse.redirect ("/patient/" ++ generate_patient_id db) ∧
    ∃ p ∈ (handle_register_patient db data).1.patients,
      p.patient_id = generate_patient_id db ∧
      p.email = some "" ∧ p.address = some "" ∧ p.emergency_contact = some "" := by
  have hout : handle_register_patient db data =
      ({ db with
         patients := db.patients ++ [registeredPatient db data fn ln dob g ph loc]
         clock := db.clock + 1 },
       HttpResponse.redirect ("/patient/" ++ generate_patient_id db)) := by
    simp only [handle_register_patient, h1, h2, h3, h4, h5, h6]
    rw [hfresh]
    simp
  rw [hout]
  refine ⟨rfl, registeredPatient db data fn ln dob g ph loc, ?_, ?_⟩
  · simp
  · simp [registeredPatient, he, ha, hc]

/-- Witness for C10: registering `validForm` (whose email, address and
emergency contact are absent) on the freshly initialized store. -/
theorem C10_absent_optional_fields_witness :
    (handle_register_patient startDB validForm).2 =
      HttpResponse.redirect ("/patient/" ++ generate_patient_id startDB) ∧
    ∃ p ∈ (handle_register_patient startDB validForm).1.patients,
      p.patient_id = generate_patient_id startDB ∧
      p.email = some "" ∧ p.address = some "" ∧ p.emergency_contact = some "" :=
  C10_absent_optional_fields startDB validForm "Test" "Patient" "1990-01-01" "Male"
    "+1234567890" 1 rfl rfl rfl rfl rfl rfl rfl rfl rfl (by decide)

/-- A registered patient row, as stored after scenario 2 of the spec. -/
def patient1 : Patient :=
  { id := 1
    patient_id := "PAT000001"
    first_name := "Test"
    last_name := "Patient"
    date_of_birth := "1990-01-01"
    gender := "Male"
    phone := "+1234567890"
    email := some ""
    address := some ""
    emergency_contact := some ""
    location_id := 1
    created_at := 1 }

/-- A blood sample of `patient1` whose results have been recorded. -/
def sampleTested : BloodSample :=
  { id := 1
    sample_id := "BS000001"
    patient_id := 1
    collection_location_id := 1
    test_location_id := some 1
    collected_by := "Nurse"
    collected_at := 2
    test_type := "Complete Blood Count (CBC)"
    status := "tested"
    results := some "All normal"
    tested_by := some "Dr. Lab"
    tested_at := some 3
    results_sent_at := none }

/-- A freshly collected, untested blood sample of `patient1`. -/
def sampleCollected : BloodSample :=
  { id := 1
    sample_id := "BS000001"
    patient_id := 1
    collection_location_id := 1
    test_location_id := none
    collected_by := "Nurse"
    collected_at := 2
    test_type := "Complete Blood Count (CBC)"
    status := "collected"
    results := none
    tested_by := none
    tested_at := none
    results_sent_at := none }

/-- A store holding one location, one patient and one tested sample. -/
def dbTested : DB :=
  { locations := [seedLocation 1 0]
    patients := [patient1]
    blood_samples := [sampleTested]
    clock := 4 }

/-- A store holding one location, one patient and one merely collected sample. -/
def dbCollected : DB :=
  { locations := [seedLocation 1 0]
    patients := [patient1]
    blood_samples := [sampleCollected]
    clock := 3 }

/-- C1 counterexample: on a sample in status `tested` (not `collected`),
`handle_update_test_results` does not fail — it responds with the success
redirect and changes the sample's fields (here `tested_by` flips from
`Dr. Lab` to `Dr. Two`), contradicting the claimed `InvalidTransition`
failure with all fields unchanged. -/
theorem C1_counterexample :
    (handle_update_test_results dbTested "BS000001"
        ⟨some 2, some "Revised", some "Dr. Two"⟩).2 =
      HttpResponse.redirect "/blood_samples" ∧
    (handle_update_test_results dbTested "BS000001"
        ⟨some 2, some "Revised", some "Dr. Two"⟩).1.blood_samples.map BloodSample.tested_by =
      [some "Dr. Two"] ∧
    dbTested.blood_samples.map BloodSample.tested_by = [some "Dr. Lab"] := by
  decide

/-- C1 (amended): `handle_update_test_results` checks no status at all — on a
sample whose status is not `collected` it still responds success (302) and
overwrites `test_location_id`, `results`, `tested_by`, `tested_at`, setting
`status` to `tested`. -/
theorem C1_no_transition_guard (db : DB) (code : String) (tl : Nat) (r tb : String)
    (s : BloodSample) (hs : s ∈ db.blood_samples) (hcode : s.sample_id = code)
    (_hstat : s.status ≠ "collected") :
    (handle_update_test_results db code ⟨some tl, some r, some tb⟩).2 =
      HttpResponse.redirect "/blood_samples" ∧
    { s with
      test_location_id := some tl
      results := some r
      tested_by := some tb
      tested_at := some db.clock
      status := "tested" } ∈
      (handle_update_test_results db code ⟨some tl, some r, some tb⟩).1.blood_samples := by
  constructor
  · rfl
  · show _ ∈ db.blood_samples.map (applyTestUpdate code tl r tb db.clock)
    have hupd : applyTestUpdate code tl r tb db.clock s =
        { s with
          test_location_id := some tl
          results := some r
          tested_by := some tb
          tested_at := some db.clock
          status := "tested" } := by
      simp [applyTestUpdate, hcode]
    rw [← hupd]
    exact List.mem_map_of_mem _ hs

/-- Witness for the amended C1 on the concrete tested sample. -/
theorem C1_no_transition_guard_witness :
    (handle_update_test_results dbTested "BS000001"
        ⟨some 2, some "Recheck", some "Dr. Three"⟩).2 =
      HttpResponse.redirect "/blood_samples" ∧
    { sampleTested with
      test_location_id := some 2
      results := some "Recheck"
      tested_by := some "Dr. Three"
      tested_at := some dbTested.clock
      status := "tested" } ∈
      (handle_update_test_results dbTested "BS000001"
        ⟨some 2, some "Recheck", some "Dr. Three"⟩).1.blood_samples :=
  C1_no_transition_guard dbTested "BS000001" 2 "Recheck" "Dr. Three" sampleTested
    (by decide) (by decide) (by decide)

/-- C6 counterexample: on a sample code matching nothing,
`handle_update_test_results` does not fail with `NotFound` — the UPDATE
matches zero rows, the handler commits and responds the success redirect. -/
theorem C6_counterexample :
    (∀ s ∈ dbTested.blood_samples, s.sample_id ≠ "BS999999") ∧
    (handle_update_test_results dbTested "BS999999" ⟨some 1, some "x", some "y"⟩).2 =
      HttpResponse.redirect "/blood_samples" := by
  decide

/-- C6 (amended): on a sample code matching no sample,
`handle_update_test_results` leaves the store's rows unchanged (that part of
the claim holds) but responds success (302) rather than failing `NotFound`. -/
theorem C6_missing_sample_no_change (db : DB) (code : String) (tl : Nat) (r tb : String)
    (h : ∀ s ∈ db.blood_samples, s.sample_id ≠ code) :
    (handle_update_test_results db code ⟨some tl, some r, some tb⟩).1.blood_samples =
      db.blood_samples ∧
    (handle_update_test_results db code ⟨some tl, some r, some tb⟩).1.patients = db.patients ∧
    (handle_update_test_results db code ⟨some tl, some r, some tb⟩).1.locations = db.locations ∧
    (handle_update_test_results db code ⟨some tl, some r, some tb⟩).2 =
      HttpResponse.redirect "/blood_samples" := by
  refine ⟨?_, rfl, rfl, rfl⟩
  show db.blood_samples.map (applyTestUpdate code tl r tb db.clock) = db.blood_samples
  calc db.blood_samples.map (applyTestUpdate code tl r tb db.clock)
      = db.blood_samples.map id := by
        apply List.map_congr_left
        intro s hs
        have hne : (s.sample_id == code) = false := beq_eq_false_iff_ne.mpr (h s hs)
        simp [applyTestUpdate, hne]
    _ = db.blood_samples := List.map_id _

/-- Witness for the amended C6 at a concrete nonexistent code. -/
theorem C6_missing_sample_no_change_witness :
    (handle_update_test_results dbTested "BS777777" ⟨some 1, some "x", some "y"⟩).1.blood_samples =
      dbTested.blood_samples ∧
    (handle_update_test_results dbTested "BS777777" ⟨some 1, some "x", some "y"⟩).1.patients =
      dbTested.patients ∧
    (handle_update_test_results dbTested "BS777777" ⟨some 1, some "x", some "y"⟩).1.locations =
      dbTested.locations ∧
    (handle_update_test_results dbTested "BS777777" ⟨some 1, some "x", some "y"⟩).2 =
      HttpResponse.redirect "/blood_samples" :=
  C6_missing_sample_no_change dbTested "BS777777" 1 "x" "y" (by decide)

/-- The per-sample invariant the code actually maintains: the four test fields
are null exactly while `collected` and non-null in `tested`/`results_sent`;
`results_sent_at` is null while `collected` and non-null in `results_sent` —
but (unlike the spec's biconditional) it may also be non-null in `tested`,
because re-running `recordTestResults` on a `results_sent` sample moves the
status back to `tested` without clearing `results_sent_at`. -/
def sampleInv (s : BloodSample) : Prop :=
  (s.status = "collected" →
    s.test_location_id = none ∧ s.results = none ∧ s.tested_by = none ∧
    s.tested_at = none ∧ s.results_sent_at = none) ∧
  (s.status = "tested" ∨ s.status = "results_sent" →
    s.test_location_id ≠ none ∧ s.results ≠ none ∧ s.tested_by ≠ none ∧
    s.tested_at ≠ none) ∧
  (s.status = "results_sent" → s.results_sent_at ≠ none)

/-- The spec's original per-sample invariant, with the biconditional
`results_sent_at` non-null iff `status = results_sent`. -/
def sampleInvSpec (s : BloodSample) : Prop :=
  (s.status = "collected" →
    s.test_location_id = none ∧ s.results = none ∧ s.tested_by = none ∧
    s.tested_at = none) ∧
  (s.status = "tested" ∨ s.status = "results_sent" →
    s.test_location_id ≠ none ∧ s.results ≠ none ∧ s.tested_by ≠ none ∧
    s.tested_at ≠ none) ∧
  (s.results_sent_at ≠ none ↔ s.status = "results_sent")

instance (s : BloodSample) : Decidable (sampleInv s) := by
  unfold sampleInv; infer_instance

instance (s : BloodSample) : Decidable (sampleInvSpec s) := by
  unfold sampleInvSpec; infer_instance

/-- The store-level invariant: every sample satisfies `sampleInv` and sample
codes are unique (the `UNIQUE` constraint on `sample_id`). -/
def dbInv (db : DB) : Prop :=
  (∀ s ∈ db.blood_samples, sampleInv s) ∧
  ∀ s₁ ∈ db.blood_samples, ∀ s₂ ∈ db.blood_samples, s₁.sample_id = s₂.sample_id → s₁ = s₂

instance (db : DB) : Decidable (dbInv db) := by
  unfold dbInv; infer_instance

theorem applyTestUpdate_sample_id (code : String) (tl : Nat) (r tb : String) (now : Nat)
    (s : BloodSample) : (applyTestUpdate code tl r tb now s).sample_id = s.sample_id := by
  unfold applyTestUpdate; split <;> rfl

theorem applySendUpdate_sample_id (code : String) (now : Nat) (s : BloodSample) :
    (applySendUpdate code now s).sample_id = s.sample_id := by
  unfold applySendUpdate; split <;> rfl

theorem dbInv_record (db : DB) (code : String) (f : TestForm) (h : dbInv db) :
    dbInv (handle_update_test_results db code f).1 := by
  obtain ⟨hinv, huniq⟩ := h
  obtain ⟨otl, orr, otb⟩ := f
  cases otl with
  | none => exact ⟨hinv, huniq⟩
  | some tl =>
  cases orr with
  | none => exact ⟨hinv, huniq⟩
  | some r =>
  cases otb with
  | none => exact ⟨hinv, huniq⟩
  | some tb =>
  constructor
  · intro t ht
    obtain ⟨u, hu, rfl⟩ := List.mem_map.mp ht
    by_cases hc : (u.sample_id == code) = true
    · have hupd : applyTestUpdate code tl r tb db.clock u =
          { u with
            test_location_id := some tl
            results := some r
            tested_by := some tb
            tested_at := some db.clock
            status := "tested" } := by
        simp [applyTestUpdate, hc]
      rw [hupd]
      refine ⟨?_, ?_, ?_⟩
      · intro hx
        exact absurd (show "tested" = "collected" from hx) (by decide)
      · intro _
        exact ⟨by simp, by simp, by simp, by simp⟩
      · intro hx
        exact absurd (show "tested" = "results_sent" from hx) (by decide)
    · have hid : applyTestUpdate code tl r tb db.clock u = u := by
        simp [applyTestUpdate, hc]
      rw [hid]
      exact hinv u hu
  · intro t₁ h₁ t₂ h₂ heq
    obtain ⟨u₁, hu₁, rfl⟩ := List.mem_map.mp h₁
    obtain ⟨u₂, hu₂, rfl⟩ := List.mem_map.mp h₂
    rw [applyTestUpdate_sample_id, applyTestUpdate_sample_id] at heq
    rw [huniq u₁ hu₁ u₂ hu₂ heq]

theorem dbInv_send (db : DB) (code : String) (ok : Bool) (h : dbInv db) :
    dbInv (handle_send_results db code ok).1 := by
  obtain ⟨hinv, huniq⟩ := h
  unfold handle_send_results
  split
  · exact ⟨hinv, huniq⟩
  · rename_i s hfind
    have hs_mem := List.mem_of_find?_eq_some hfind
    have hs_pred := List.find?_some hfind
    simp only [Bool.and_eq_true, beq_iff_eq] at hs_pred
    obtain ⟨hs_code, hs_status⟩ := hs_pred
    split
    · exact ⟨hinv, huniq⟩
    · split
      · constructor
        · intro t ht
          obtain ⟨u, hu, rfl⟩ := List.mem_map.mp ht
          by_cases hc : (u.sample_id == code) = true
          · have hueq : u = s := by
              rw [beq_iff_eq] at hc
              exact huniq u hu s hs_mem (by rw [hc, hs_code])
            subst hueq
            have hupd : applySendUpdate code db.clock u =
                { u with
                  status := "results_sent"
                  results_sent_at := some db.clock } := by
              simp [applySendUpdate, hc]
            rw [hupd]
            obtain ⟨_, h2, _⟩ := hinv u hu
            obtain ⟨ha, hb, hcc, hd⟩ := h2 (Or.inl hs_status)
            refine ⟨?_, ?_, ?_⟩
            · intro hx
              exact absurd (show "results_sent" = "collected" from hx) (by decide)
            · intro _
              exact ⟨ha, hb, hcc, hd⟩
            · intro _
              simp
          · have hid : applySendUpdate code db.clock u = u := by
              simp [applySendUpdate, hc]
            rw [hid]
            exact hinv u hu
        · intro t₁ h₁ t₂ h₂ heq
          obtain ⟨u₁, hu₁, rfl⟩ := List.mem_map.mp h₁
          obtain ⟨u₂, hu₂, rfl⟩ := List.mem_map.mp h₂
          rw [applySendUpdate_sample_id, applySendUpdate_sample_id] at heq
          rw [huniq u₁ hu₁ u₂ hu₂ heq]
      · exact ⟨hinv, huniq⟩

theorem dbInv_collect (db : DB) (pc : String) (f : CollectForm) (h : dbInv db) :
    dbInv (handle_collect_blood_sample db pc f).1 := by
  obtain ⟨hinv, huniq⟩ := h
  unfold handle_collect_blood_sample
  split
  · exact ⟨hinv, huniq⟩
  · rename_i p hp
    obtain ⟨ocl, ott, ocb⟩ := f
    cases ocl with
    | none => exact ⟨hinv, huniq⟩
    | some cl =>
    cases ott with
    | none => exact ⟨hinv, huniq⟩
    | some tt =>
    cases ocb with
    | none => exact ⟨hinv, huniq⟩
    | some cb =>
    by_cases hdup : (db.blood_samples.any (fun s => s.sample_id == generate_sample_id db)) = true
    · simp only [hdup, if_true]
      exact ⟨hinv, huniq⟩
    · have hdupf : (db.blood_samples.any (fun s => s.sample_id == generate_sample_id db)) = false :=
        Bool.eq_false_iff.mpr hdup
      simp only [hdupf, Bool.false_eq_true, if_false]
      have hfreshcode : ∀ u ∈ db.blood_samples, u.sample_id ≠ generate_sample_id db := by
        intro u hu
        have h2 := List.any_eq_false.mp hdupf u hu
        simpa using h2
      constructor
      · intro t ht
        rcases List.mem_append.mp ht with ht | ht
        · exact hinv t ht
        · rw [List.mem_singleton.mp ht]
          refine ⟨?_, ?_, ?_⟩
          · intro _
            exact ⟨rfl, rfl, rfl, rfl, rfl⟩
          · intro hx
            rcases hx with hx | hx
            · exact absurd (show "collected" = "tested" from hx) (by decide)
            · exact absurd (show "collected" = "results_sent" from hx) (by decide)
          · intro hx
            exact absurd (show "collected" = "results_sent" from hx) (by decide)
      · intro t₁ h₁ t₂ h₂ heq
        rcases List.mem_append.mp h₁ with h₁ | h₁ <;> rcases List.mem_append.mp h₂ with h₂ | h₂
        · exact huniq t₁ h₁ t₂ h₂ heq
        · rw [List.mem_singleton.mp h₂] at heq
          exact absurd heq (hfreshcode t₁ h₁)
        · rw [List.mem_singleton.mp h₁] at heq
          exact absurd heq.symm (hfreshcode t₂ h₂)
        · rw [List.mem_singleton.mp h₁, List.mem_singleton.mp h₂]

theorem dbInv_applyOp (db : DB) (op : Op) (h : dbInv db) : dbInv (applyOp db op) := by
  cases op with
  | collect pc f => exact dbInv_collect db pc f h
  | record sc f => exact dbInv_record db sc f h
  | send sc ok => exact dbInv_send db sc ok h

/-- The store with one registered patient (`PAT000001`), the base state for
running blood-sample workflows. -/
def dbReady : DB := (handle_register_patient startDB validForm).1

/-- The operation sequence collect → record results → deliver → record
results again, which the handlers accept because `handle_update_test_results`
has no status guard. -/
def opsC5 : List Op :=
  [Op.collect "PAT000001" ⟨some 1, some "Complete Blood Count (CBC)", some "Nurse"⟩,
   Op.record "BS000001" ⟨some 1, some "All normal", some "Dr. Lab"⟩,
   Op.send "BS000001" true,
   Op.record "BS000001" ⟨some 1, some "Recheck", some "Dr. Two"⟩]

/-- C5 counterexample: after the reachable sequence collect, record, deliver,
record, the sample has status `tested` with `results_sent_at` still set, so
the claimed biconditional (resultsSentAt non-null iff status = results_sent)
is false in a reachable store. -/
theorem C5_counterexample :
    ∃ s ∈ (runOps dbReady opsC5).blood_samples,
      s.status = "tested" ∧ s.results_sent_at ≠ none ∧ ¬ sampleInvSpec s := by
  decide

/-- C5 (amended): over every operation sequence, every sample keeps the
invariant that the four test fields are null exactly while `collected` and
non-null in `tested`/`results_sent`, and `results_sent_at` is null while
`collected` and non-null when `results_sent` — but, the one weakening the
code forces, `results_sent_at` may also remain non-null in status `tested`
after `recordTestResults` is re-applied to a `results_sent` sample; sample
codes stay unique throughout. -/
theorem C5_invariant_all_ops (db : DB) (ops : List Op) (h : dbInv db) :
    dbInv (runOps db ops) := by
  induction ops generalizing db with
  | nil => exact h
  | cons op rest ih => exact ih (applyOp db op) (dbInv_applyOp db op h)

/-- Witness for the amended C5: the concrete store with one patient satisfies
the invariant and still satisfies it after the four-step sequence. -/
theorem C5_invariant_all_ops_witness :
    dbInv dbReady ∧ dbInv (runOps dbReady opsC5) :=
  ⟨by decide, C5_invariant_all_ops dbReady opsC5 (by decide)⟩

/-- C3 counterexample: a sample that exists but is merely `collected` makes
`handle_send_results` answer the very same 404 `NotFound` response as a
sample code matching nothing — there is no distinct `InvalidTransition`
failure for the wrong-status case. -/
theorem C3_counterexample :
    (∃ s ∈ dbCollected.blood_samples, s.sample_id = "BS000001" ∧ s.status ≠ "tested") ∧
    (handle_send_results dbCollected "BS000001" true).2 =
      HttpResponse.error 404 "Sample not found or not tested" ∧
    (handle_send_results dbCollected "BS000001" true).2 =
      (handle_send_results dbCollected "BS999999" true).2 := by
  decide

/-- C3 (amended): `handle_send_results` fails with the same 404
`"Sample not found or not tested"` both when no sample matches the code and
when the matched sample is not in status `tested`, leaving the samples
unchanged; when a `tested` sample and its patient are found and the
notification capability reports success, the sample's status becomes
`results_sent` and `results_sent_at` is set to a timestamp ≥ `tested_at`. -/
theorem C3_deliver_results (db : DB) (code : String) :
    ((∀ s ∈ db.blood_samples, ¬(s.sample_id = code ∧ s.status = "tested")) →
      (handle_send_results db code true).2 =
        HttpResponse.error 404 "Sample not found or not tested" ∧
      (handle_send_results db code true).1.blood_samples = db.blood_samples) ∧
    (∀ s, db.blood_samples.find? (fun u => u.sample_id == code && u.status == "tested") = some s →
      ∀ p, db.patients.find? (fun q => q.id == s.patient_id) = some p →
      (∀ u ∈ db.blood_samples, ∀ t, u.tested_at = some t → t ≤ db.clock) →
      (∀ u ∈ db.blood_samples, sampleInv u) →
      (handle_send_results db code true).2 = HttpResponse.redirect "/blood_samples" ∧
      ∃ s' ∈ (handle_send_results db code true).1.blood_samples,
        s'.sample_id = code ∧ s'.status = "results_sent" ∧
        ∃ t u, s'.tested_at = some t ∧ s'.results_sent_at = some u ∧ t ≤ u) := by
  constructor
  · intro h
    have hnone : db.blood_samples.find?
        (fun u => u.sample_id == code && u.status == "tested") = none := by
      rw [List.find?_eq_none]
      intro u hu
      simp only [Bool.and_eq_true, beq_iff_eq, not_and]
      intro h1 h2
      exact h u hu ⟨h1, h2⟩
    unfold handle_send_results
    rw [hnone]
    exact ⟨rfl, rfl⟩
  · intro s hfind p hp htime hinv
    have hs_mem := List.mem_of_find?_eq_some hfind
    have hs_pred := List.find?_some hfind
    simp only [Bool.and_eq_true, beq_iff_eq] at hs_pred
    obtain ⟨hs_code, hs_status⟩ := hs_pred
    have hctrue : (s.sample_id == code) = true := beq_iff_eq.mpr hs_code
    obtain ⟨_, h2, _⟩ := hinv s hs_mem
    have htn := (h2 (Or.inl hs_status)).2.2.2
    obtain ⟨t, ht⟩ := Option.ne_none_iff_exists'.mp htn
    unfold handle_send_results
    split
    · rename_i hnone
      rw [hfind] at hnone
      simp at hnone
    · rename_i s' hfind'
      rw [hfind] at hfind'
      injection hfind' with hss
      subst hss
      split
      · rename_i hpnone
        rw [hp] at hpnone
        simp at hpnone
      · refine ⟨rfl, applySendUpdate code db.clock s, ?_, ?_, ?_, ?_⟩
        · exact List.mem_map_of_mem _ hs_mem
        · rw [applySendUpdate_sample_id]
          exact hs_code
        · show (applySendUpdate code db.clock s).status = "results_sent"
          simp [applySendUpdate, hctrue]
        · refine ⟨t, db.clock, ?_, ?_, htime s hs_mem t ht⟩
          · show (applySendUpdate code db.clock s).tested_at = some t
            simpa [applySendUpdate, hctrue] using ht
          · show (applySendUpdate code db.clock s).results_sent_at = some db.clock
            simp [applySendUpdate, hctrue]

/-- Witness for the amended C3: the 404 branch on the collected sample and
the success branch on the tested sample, both concrete. -/
theorem C3_deliver_results_witness :
    ((handle_send_results dbCollected "BS000001" true).2 =
        HttpResponse.error 404 "Sample not found or not tested" ∧
      (handle_send_results dbCollected "BS000001" true).1.blood_samples =
        dbCollected.blood_samples) ∧
    ((handle_send_results dbTested "BS000001" true).2 =
        HttpResponse.redirect "/blood_samples" ∧
      ∃ s' ∈ (handle_send_results dbTested "BS000001" true).1.blood_samples,
        s'.sample_id = "BS000001" ∧ s'.status = "results_sent" ∧
        ∃ t u, s'.tested_at = some t ∧ s'.results_sent_at = some u ∧ t ≤ u) :=
  ⟨(C3_deliver_results dbCollected "BS000001").1 (by decide),
   (C3_deliver_results dbTested "BS000001").2 sampleTested (by decide) patient1
     (by decide) (by decide) (by decide)⟩

/-- The registration input whose `location_id` references no `locations` row. -/
def form999 : RegisterForm := { validForm with location_id := some 999 }

/-- C2: evaluated at the failing input — registering against the freshly
initialized store (whose only location has id 1) with `location_id = 999` —
the code inserts the patient row with the dangling reference and responds
success, because the schema's declared FOREIGN KEY is never enforced
(`PRAGMA foreign_keys = ON` is never issued): the spec's
`ReferentialIntegrityViolation` never occurs. -/
theorem C2_unenforced_foreign_key :
    (∀ l ∈ startDB.locations, l.id ≠ 999) ∧
    (handle_register_patient startDB form999).2 =
      HttpResponse.redirect "/patient/PAT000001" ∧
    (handle_register_patient startDB form999).1.patients.map
        (fun p => (p.patient_id, p.location_id)) = [("PAT000001", 999)] := by
  decide
